import Mathlib

/-!
Shallow embedding of `wdf_converter.py` (yetiki/WDFConverter).

The program batch-converts WDF spectroscopy files into per-record text files
or a single aggregate CSV per input file.  The embedding models:

* path-string helpers (`os.path.basename`, `os.path.splitext`, …);
* `get_filenames` (discovery over an abstract filesystem listing);
* `mirror_dir_path_tree` (directory mirroring with a per-target failure oracle);
* the intensity reshape / fallback logic shared by both extractors;
* `extract_and_save_spectra_to_txt` and `extract_and_save_spectra_to_csv`;
* `run_conversion` (the batch driver).

Python exceptions are modelled explicitly: a function that can let an
exception escape returns `Except PyError _`; exceptions that the source
catches are folded into ordinary return values exactly where the source
catches them.  Filesystem and decoder effects are supplied by oracles in
an `Env` record: the decoder outcome per path, and the success/failure of
each `os.makedirs` / `np.savetxt` / `DataFrame.to_csv` call.  Numeric data
is modelled with `ℚ` (the claims under verification concern shapes, counts,
control flow and string categories, not floating-point rounding).
-/

/-- Exception classes raised by the Python code paths that matter here. -/
inductive PyError where
  | fileNotFound (msg : String)
  | osError (msg : String)
  | attributeError (msg : String)
  | valueError (msg : String)
  | ioError (msg : String)
deriving DecidableEq

/-! ### Path-string helpers (`os.path` / `pathlib` fragments used by the source)

All string manipulation is implemented by structural recursion over the
character list `String.data`, so that every definition reduces inside the
kernel (the corresponding core-library functions use well-founded recursion
over byte positions and do not). -/

/-- Split a character list at every occurrence of `sep`
(`str.split(sep)` / `String.splitOn` for a one-character separator). -/
def splitOnCharAux (sep : Char) : List Char → List Char → List (List Char)
  | [], acc => [acc.reverse]
  | c :: rest, acc =>
      if c == sep then acc.reverse :: splitOnCharAux sep rest []
      else splitOnCharAux sep rest (c :: acc)

/-- Split a character list on a separator character. -/
def splitOnChar (sep : Char) (l : List Char) : List (List Char) :=
  splitOnCharAux sep l []

/-- Join character lists with a separator character (`sep.join(parts)`). -/
def joinChar (sep : Char) : List (List Char) → List Char
  | [] => []
  | [x] => x
  | x :: rest => x ++ sep :: joinChar sep rest

/-- `os.path.basename`: the part after the last `/`. -/
def baseName (p : String) : String :=
  String.mk ((splitOnChar '/' p.data).getLastD [])

/-- `os.path.dirname`: everything before the last `/` (empty if no `/`). -/
def dirName (p : String) : String :=
  String.mk (joinChar '/' (splitOnChar '/' p.data).dropLast)

/-- Core of `os.path.splitext` on a name with no leading dots. -/
def splitExtCore (s : List Char) : List Char × List Char :=
  match splitOnChar '.' s with
  | [] => (s, [])
  | [_] => (s, [])
  | parts => (joinChar '.' parts.dropLast, '.' :: parts.getLastD [])

/-- `os.path.splitext`: split off the final extension; leading dots of the
name never start an extension (`".bashrc"` has no extension). -/
def splitExt (name : String) : String × String :=
  let lead := name.data.takeWhile (fun c => c == '.')
  let rest := name.data.drop lead.length
  let pr := splitExtCore rest
  (String.mk (lead ++ pr.1), String.mk pr.2)

/-- `pathlib.Path.suffix` of the final path component. -/
def pathSuffix (p : String) : String :=
  (splitExt (baseName p)).2

/-- `os.path.join` restricted to the shapes the source uses. -/
def joinPath (a b : String) : String :=
  if a == "" then b else if b == "" then a else a ++ "/" ++ b

/-- `os.path.relpath p root` for `p` at or strictly under `root` (the only
shapes `run_conversion` feeds it): `"."` for the root itself, otherwise the
suffix after `root ++ "/"`. -/
def relPath (p root : String) : String :=
  if p == root then "."
  else if List.isPrefixOf (root.data ++ ['/']) p.data then
    String.mk (p.data.drop (root.data.length + 1))
  else p

/-! ### Discovery: `get_filenames` -/

/-- One filesystem entry under the import root: its full path string, whether
it is a regular file, and whether it is a direct child of the root. -/
structure FSEntry where
  path : String
  isFile : Bool
  topLevel : Bool
deriving DecidableEq

/-- Lexicographic strict comparison of character lists by code point
(the order `sorted` uses on Python strings). -/
def charsLtB : List Char → List Char → Bool
  | [], [] => false
  | [], _ :: _ => true
  | _ :: _, [] => false
  | a :: as, b :: bs =>
      if a < b then true else if b < a then false else charsLtB as bs

/-- Lexicographic `≤` on strings, as a computable comparator. -/
def strLeB (a b : String) : Bool := !(charsLtB b.data a.data)

/-- Lower-casing (`str.lower()`), character-wise. -/
def strToLower (s : String) : String := String.mk (s.data.map Char.toLower)

/-- `fnmatch` for the patterns the source builds: either `"*"` (match all) or
`"*<ext>"` (name ends with `<ext>`); other patterns are literal names. -/
def globNameMatch (pat name : String) : Bool :=
  if pat == "*" then true
  else if pat.data.head? == some '*' then List.isSuffixOf (pat.data.drop 1) name.data
  else name == pat

/-- Python truthiness of the `patterns` argument: `None` and `[]` both fall
back to the match-all pattern. -/
def patsOrStar : Option (List String) → List String
  | none => ["*"]
  | some [] => ["*"]
  | some l => l

/-- `get_filenames(dir_path, patterns, recursive)`.  `entries` lists every
path under the root (files and directories, the root itself excluded), in
arbitrary filesystem enumeration order.  Recursive search uses
`rglob('*'+pattern)` (name-suffix match, directories included); non-recursive
search uses `iterdir` restricted to regular files filtered by exact
`Path.suffix` membership.  The result is sorted, as in the source. -/
def get_filenames (entries : List FSEntry) (patterns : Option (List String))
    (recursive : Bool) : List String :=
  let found : List String :=
    if recursive then
      (patsOrStar patterns).flatMap (fun pat =>
        let pat := if pat.data.head? == some '*' then pat else "*" ++ pat
        (entries.filter (fun e => globNameMatch pat (baseName e.path))).map
          (fun e => e.path))
    else
      let fileEntries := entries.filter (fun e => e.topLevel && e.isFile)
      let filtered :=
        match patterns with
        | none => fileEntries
        | some [] => fileEntries
        | some pats =>
            fileEntries.filter (fun e => pats.contains (pathSuffix e.path))
      filtered.map (fun e => e.path)
  List.insertionSort (fun a b => strLeB a b = true) found

/-! ### Directory mirroring: `mirror_dir_path_tree` -/

/-- `mirror_dir_path_tree(import_dir, export_dir)`.  `relDirs` is the
sequence of directories yielded by `os.walk`, already converted to paths
relative to the import root (`""` for the root itself, which `os.walk`
yields first).  `mkFail target` gives the outcome of
`os.makedirs(target, exist_ok=True)`: `some e` models a raised `OSError`.
Returns the list of targets successfully ensured, in order, and the first
raised error, if any — there is no per-directory handler in the source, so
the first failure ends the walk. -/
def mirror_dir_path_tree (relDirs : List String) (exportRoot : String)
    (mkFail : String → Option String) : List String × Option String :=
  match relDirs with
  | [] => ([], none)
  | d :: rest =>
      let target := joinPath exportRoot d
      match mkFail target with
      | some e => ([], some e)
      | none =>
          let pr := mirror_dir_path_tree rest exportRoot mkFail
          (target :: pr.1, pr.2)

/-! ### The decoded WDF handle and the reshape / fallback logic -/

/-- A 2-D `numpy` array in row-major order: shape `(rows, cols)` plus flat
data.  Well-formedness (`data.length = rows * cols`) is a separate
proposition, mirroring the fact that `numpy` maintains it as an invariant. -/
structure Mat where
  rows : Nat
  cols : Nat
  data : List ℚ
deriving DecidableEq

/-- Shape invariant of a real `numpy` array. -/
def Mat.wf (m : Mat) : Prop := m.data.length = m.rows * m.cols

/-- Row `i` of a row-major matrix. -/
def Mat.row (m : Mat) (i : Nat) : List ℚ :=
  (m.data.drop (i * m.cols)).take m.cols

/-- `np.asarray(reader.spectra)`: the raw sample buffer is either flat
(rank 1) or already two-dimensional. -/
inductive Buffer where
  | rank1 (data : List ℚ)
  | rank2 (m : Mat)
deriving DecidableEq

/-- `ndarray.size`: total number of elements. -/
def Buffer.size : Buffer → Nat
  | .rank1 d => d.length
  | .rank2 m => m.data.length

/-- The buffer's elements in row-major order. -/
def Buffer.flat : Buffer → List ℚ
  | .rank1 d => d
  | .rank2 m => m.data

/-- `np.reshape(buf, (n, p))`: succeeds exactly when `n * p` equals the
total size; `none` models the raised `ValueError`. -/
def npReshape (b : Buffer) (n p : Nat) : Option Mat :=
  if n * p = b.size then some ⟨n, p, b.flat⟩ else none

/-- The decoder handle (`WDFReader`): spectral axis, raw sample buffer,
`count` (modelled as `Option` so that `none` is a missing attribute, making
`reader.count` raise `AttributeError` and `getattr(reader, 'count', 1)`
return 1), and `point_per_spectrum`. -/
structure WDFHandle where
  xdata : List ℚ
  spectra : Buffer
  count : Option Nat
  point_per_spectrum : Nat
deriving DecidableEq

/-- The `try: np.reshape(...) except: ...` normalization block shared by
both extractors (`wdf_converter.py` lines 156-164 and 196-203).

* try: `np.reshape(intensities, (reader.count, reader.point_per_spectrum))`
  — any exception (missing `count` attribute, or size mismatch) falls into
  the handler;
* if the buffer is already rank 2, use it as-is;
* otherwise `n_points = size // max(1, getattr(reader, 'count', 1))` and
  `reshape((getattr(reader, 'count', 1), n_points))` — note the guarded
  divisor but the *unguarded* row count; this second reshape is not inside
  any `try`, so its `ValueError` escapes. -/
def reshapeIntensities (h : WDFHandle) : Except PyError Mat :=
  match h.count.bind (fun n => npReshape h.spectra n h.point_per_spectrum) with
  | some m => .ok m
  | none =>
      match h.spectra with
      | .rank2 m => .ok m
      | .rank1 data =>
          let n := h.count.getD 1
          let p := data.length / max 1 n
          match npReshape (.rank1 data) n p with
          | some m => .ok m
          | none =>
              .error (.valueError ("cannot reshape array of size "
                ++ toString data.length ++ " into shape ("
                ++ toString n ++ ", " ++ toString p ++ ")"))

/-! ### Per-record text export: `extract_and_save_spectra_to_txt` -/

/-- Fixed-point rendering of a `Nat` with exactly `k` decimal digits
(the `%0kd` part of `'%.6f'`). -/
def natDigitsFixed (k m : Nat) : String :=
  String.mk ((List.range k).map (fun i => Char.ofNat (48 + m / 10 ^ (k - 1 - i) % 10)))

/-- `'%.6f' % q`: six-decimal fixed-point formatting (over `ℚ`, rounding to
the nearest multiple of `10⁻⁶`). -/
def fmt6 (q : ℚ) : String :=
  let n : ℤ := round (q * 1000000)
  (if n < 0 then "-" else "")
    ++ toString (n.natAbs / 1000000) ++ "." ++ natDigitsFixed 6 (n.natAbs % 1000000)

/-- One line of a per-record text file: axis value and intensity,
tab-separated, both `'%.6f'` formatted (`np.savetxt(..., fmt='%.6f',
delimiter='\t')` on a two-column stack). -/
def fmtLine (x y : ℚ) : String := fmt6 x ++ "\t" ++ fmt6 y

/-- One written per-record text file: its name inside the output directory
and its lines (no header). -/
structure TxtFile where
  name : String
  lines : List String
deriving DecidableEq

/-- The body of one iteration of the save loop: `np.column_stack` (raises
`ValueError` when the axis and the record have different lengths) followed
by `np.savetxt` (whose I/O failure, supplied by the oracle as `some e`,
raises and is caught nowhere in the source). -/
def saveOneSpectrum (axis row : List ℚ) (idx : Nat) (w : Option String) :
    Except PyError TxtFile :=
  if axis.length ≠ row.length then
    .error (.valueError "column_stack: input arrays have different lengths")
  else
    match w with
    | some e => .error (.ioError e)
    | none =>
        .ok { name := toString idx ++ ".txt",
              lines := (axis.zip row).map (fun pr => fmtLine pr.1 pr.2) }

/-- The text file the loop writes for record `i` (used to state results). -/
def mkTxtFile (axis : List ℚ) (m : Mat) (i : Nat) : TxtFile :=
  { name := toString i ++ ".txt",
    lines := (axis.zip (m.row i)).map (fun pr => fmtLine pr.1 pr.2) }

/-- `for idx in range(n_spectra): ...` over an explicit index list.
The first raised exception ends the loop (files already written are simply
left in place and are not returned). -/
def saveSpectraAux (axis : List ℚ) (m : Mat) (wfail : Nat → Option String) :
    List Nat → Except PyError (List TxtFile)
  | [] => .ok []
  | i :: rest =>
      match saveOneSpectrum axis (m.row i) i (wfail i) with
      | .error pe => .error pe
      | .ok f =>
          match saveSpectraAux axis m wfail rest with
          | .error pe => .error pe
          | .ok fs => .ok (f :: fs)

/-- `extract_and_save_spectra_to_txt(wdf_path, txt_export_dir)`.

`decodeRes` is the outcome of `WDFReader(wdf_path)` (`Except.error e` models
the raised decode exception, already rendered as `"<Type>: <msg>"`).
`mkFail` is the outcome of the function's own
`os.makedirs(txt_export_dir_path, exist_ok=True)`; `wfail i` the outcome of
`np.savetxt` for record `i`.  Returns `(written files, n_spectra, error)` on
normal return; `Except.error` models an exception escaping the function
(reshape `ValueError`, `column_stack` `ValueError`, `makedirs` `OSError`,
or `savetxt` I/O error — none of these is caught in the source). -/
def extract_and_save_spectra_to_txt (decodeRes : Except String WDFHandle)
    (mkFail : Option String) (wfail : Nat → Option String) :
    Except PyError (List TxtFile × Nat × Option String) :=
  match decodeRes with
  | .error e => .ok ([], 0, some ("Failed to open: " ++ e))
  | .ok h =>
      match reshapeIntensities h with
      | .error pe => .error pe
      | .ok m =>
          match mkFail with
          | some e => .error (.osError e)
          | none =>
              match saveSpectraAux h.xdata m wfail (List.range m.rows) with
              | .error pe => .error pe
              | .ok files => .ok (files, m.rows, none)

/-! ### Aggregate CSV export: `extract_and_save_spectra_to_csv` -/

/-- The single CSV file: header row of axis values, one row per record. -/
structure CsvFile where
  header : List ℚ
  rows : List (List ℚ)
deriving DecidableEq

/-- The `try: df = pd.DataFrame(...); df.to_csv(...) except ...` step.
`pd.DataFrame(intensities, columns=raman_shifts)` raises `ValueError` when
the axis length differs from the record width; `to_csv`'s I/O outcome is
the oracle `ioFail`.  Both exceptions are caught by the source and turned
into `(0, "Failed to write CSV: <error>")`. -/
def write_csv_step (axis : List ℚ) (m : Mat) (ioFail : Option String) :
    Option CsvFile × Nat × Option String :=
  if axis.length ≠ m.cols then
    (none, 0,
      some "Failed to write CSV: ValueError: Shape of passed values does not match columns")
  else
    match ioFail with
    | some e => (none, 0, some ("Failed to write CSV: " ++ e))
    | none =>
        (some { header := axis, rows := (List.range m.rows).map m.row }, 1, none)

/-- `extract_and_save_spectra_to_csv(wdf_path, csv_filename)`.  As for the
text variant, `Except.error` models an exception escaping the function —
only the reshape fallback can do that here, since the whole write step is
wrapped in `try/except`. -/
def extract_and_save_spectra_to_csv (decodeRes : Except String WDFHandle)
    (ioFail : Option String) :
    Except PyError (Option CsvFile × Nat × Option String) :=
  match decodeRes with
  | .error e => .ok (none, 0, some ("Failed to open: " ++ e))
  | .ok h =>
      match reshapeIntensities h with
      | .error pe => .error pe
      | .ok m => .ok (write_csv_step h.xdata m ioFail)

/-! ### The batch driver: `run_conversion` -/

/-- The effect oracles and filesystem snapshot a batch runs against. -/
structure Env where
  /-- `os.path.isdir(wdf_import_dir_path)`. -/
  importDirExists : Bool
  /-- Outcome of `os.makedirs(txt_export_dir_path, exist_ok=True)` on the
  export root (`some e` = raised `OSError`). -/
  exportRootFail : Option String
  /-- The directories `os.walk` yields under the import root, as paths
  relative to it (`""` first, for the root itself), in enumeration order. -/
  walkRelDirs : List String
  /-- Per-target outcome of `os.makedirs` during mirroring. -/
  mirrorFail : String → Option String
  /-- Every path under the import root (for `get_filenames`). -/
  entries : List FSEntry
  /-- Outcome of `WDFReader(path)` per input path. -/
  decode : String → Except String WDFHandle
  /-- Per-directory outcome of the per-file `os.makedirs` calls. -/
  subdirFail : String → Option String
  /-- Outcome of `np.savetxt` per (input path, record index). -/
  writeFail : String → Nat → Option String
  /-- Outcome of `DataFrame.to_csv` per input path. -/
  csvWriteFail : String → Option String

/-- What processing one file does to the batch state. -/
inductive FileOutcome where
  /-- Success: the per-file destination `d` was ensured, conversion worked. -/
  | success (d : String)
  /-- Recorded failure: category string, plus the destination directory if
  it had been ensured before the failure. -/
  | failure (category : String) (d : Option String)
  /-- An exception escaped the loop body: the whole batch aborts. -/
  | crash (pe : PyError)
deriving DecidableEq

/-- `failed.setdefault(err, []).append(basename)` on an insertion-ordered
mapping (Python `dict`) represented as an association list. -/
def recordFail : List (String × List String) → String → String →
    List (String × List String)
  | [], err, b => [(err, [b])]
  | (k, v) :: rest, err, b =>
      if k == err then (k, v ++ [b]) :: rest
      else (k, v) :: recordFail rest err b

/-- The basenames recorded under category `k` (empty if `k` is absent). -/
def failsOf (mp : List (String × List String)) (k : String) : List String :=
  match mp.find? (fun pr => pr.1 == k) with
  | some pr => pr.2
  | none => []

/-- Mutable state of the batch loop. -/
structure LoopState where
  successCount : Nat
  failedMap : List (String × List String)
  createdDirs : List String
deriving DecidableEq

/-- The loop body for one discovered file (`run_conversion` lines 260-324),
minus the progress/log output.  It only reads the environment, never the
accumulated state, so it returns a `FileOutcome`. -/
def processFile (env : Env) (importRoot exportRoot fmt : String)
    (mirror : Bool) (wdf : String) : FileOutcome :=
  let bname := baseName wdf
  let stem := (splitExt bname).1
  let relDir0 := relPath (dirName wdf) importRoot
  let relDir := if relDir0 == "." then "" else relDir0
  if strToLower fmt == "txt" then
    let subdir :=
      if mirror then joinPath (joinPath exportRoot relDir) stem
      else joinPath exportRoot stem
    match env.subdirFail subdir with
    | some e => .failure ("OS error creating output dir: " ++ e) none
    | none =>
        -- the extractor re-runs makedirs on the directory just ensured;
        -- with exist_ok=True it succeeds again, hence `none` here
        match extract_and_save_spectra_to_txt (env.decode wdf) none
            (env.writeFail wdf) with
        | .error pe => .crash pe
        | .ok (_, written, errOpt) =>
            if written > 0 then .success subdir
            else .failure (errOpt.getD "No spectra written") (some subdir)
  else if strToLower fmt == "csv" then
    let csvName :=
      if mirror then joinPath (joinPath exportRoot relDir) (stem ++ ".csv")
      else joinPath exportRoot (stem ++ ".csv")
    match env.subdirFail (dirName csvName) with
    | some e => .failure ("OS error creating CSV output dir: " ++ e) none
    | none =>
        match extract_and_save_spectra_to_csv (env.decode wdf)
            (env.csvWriteFail wdf) with
        | .error pe => .crash pe
        | .ok (_, written, errOpt) =>
            if written > 0 then .success (dirName csvName)
            else .failure (errOpt.getD "CSV write failed") (some (dirName csvName))
  else
    -- `failed` is a dict; `failed.append(basename)` raises AttributeError,
    -- which nothing in run_conversion catches
    .crash (.attributeError "dict object has no attribute append")

/-- Fold a `FileOutcome` into the loop state. -/
def applyOutcome (st : LoopState) (bname : String) :
    FileOutcome → LoopState × Option PyError
  | .success d =>
      ({ st with successCount := st.successCount + 1,
                 createdDirs := st.createdDirs ++ [d] }, none)
  | .failure cat d =>
      ({ st with failedMap := recordFail st.failedMap cat bname,
                 createdDirs := st.createdDirs ++ d.toList }, none)
  | .crash pe => (st, some pe)

/-- The batch loop over the discovered files; a crash aborts it, carrying
the state reached so far (for reasoning — the Python local state is lost
when the exception propagates). -/
def processAll (env : Env) (importRoot exportRoot fmt : String)
    (mirror : Bool) : List String → LoopState → LoopState × Option PyError
  | [], st => (st, none)
  | w :: rest, st =>
      match applyOutcome st (baseName w) (processFile env importRoot exportRoot fmt mirror w) with
      | (st', none) => processAll env importRoot exportRoot fmt mirror rest st'
      | (st', some pe) => (st', some pe)

deriving instance DecidableEq for Except

/-- Observable outcome of one `run_conversion` call. -/
structure RunOutcome where
  /-- Directories ensured to exist, in order (export root, mirrored
  directories, then per-file destinations). -/
  createdDirs : List String
  /-- The failure mapping at the end (or at the abort point). -/
  failedMapFinal : List (String × List String)
  /-- The failed total of the final summary line, `none` if the run raised
  before printing it. -/
  printedTotalFailed : Option Nat
  /-- The return value `(success_count, failed_basenames)`, or the raised
  exception. -/
  result : Except PyError (Nat × List String)
deriving DecidableEq

/-- The tail of `run_conversion` after the per-file loop: either the loop
raised (the exception propagates, the summary is never printed), or the
summary line is printed (`total_failed` = sum of the per-category list
lengths) and `(success_count, list({b for files in failed.values() for b in
files}))` is returned — a deduplicated set of basenames (its iteration
order is implementation-defined; the model fixes first-occurrence order). -/
def finishRun (pr : LoopState × Option PyError) : RunOutcome :=
  match pr.2 with
  | some pe =>
      { createdDirs := pr.1.createdDirs, failedMapFinal := pr.1.failedMap,
        printedTotalFailed := none, result := .error pe }
  | none =>
      { createdDirs := pr.1.createdDirs, failedMapFinal := pr.1.failedMap,
        printedTotalFailed :=
          some ((pr.1.failedMap.map (fun p => p.2.length)).sum),
        result := .ok (pr.1.successCount,
          ((pr.1.failedMap.map (fun p => p.2)).flatten).dedup) }

/-- `run_conversion(import_dir, export_dir, format, mirror, recursive)`.

Follows the source line by line: import-dir check, export-root creation,
optional mirroring (whose exception is caught and only logged), discovery
via `get_filenames(..., patterns='.wdf')`, the per-file loop, and the final
summary. -/
def run_conversion (env : Env) (importRoot exportRoot fmt : String)
    (mirror recursive : Bool) : RunOutcome :=
  if !env.importDirExists then
    { createdDirs := [], failedMapFinal := [], printedTotalFailed := none,
      result := .error (.fileNotFound
        ("Import directory does not exist: " ++ importRoot)) }
  else
    match env.exportRootFail with
    | some e =>
        { createdDirs := [], failedMapFinal := [], printedTotalFailed := none,
          result := .error (.osError
            ("Failed to create export directory " ++ exportRoot ++ ": " ++ e)) }
    | none =>
        let mirrorCreated :=
          if mirror then (mirror_dir_path_tree env.walkRelDirs exportRoot env.mirrorFail).1
          else []
        let files := get_filenames env.entries (some [".wdf"]) recursive
        let created0 := exportRoot :: mirrorCreated
        if files.isEmpty then
          { createdDirs := created0, failedMapFinal := [],
            printedTotalFailed := none,
            result := .error (.fileNotFound
              ("No WDF files found in " ++ importRoot)) }
        else
          finishRun (processAll env importRoot exportRoot fmt mirror files
            { successCount := 0, failedMap := [], createdDirs := created0 })

/-! ## Helper lemmas -/

theorem bufferSizeFlat (b : Buffer) : b.size = b.flat.length := by
  cases b <;> rfl

theorem matRowLength (m : Mat) (hwf : m.wf) (i : Nat) (hi : i < m.rows) :
    (m.row i).length = m.cols := by
  have hmul : i * m.cols + m.cols ≤ m.rows * m.cols := by
    have h1 : (i + 1) * m.cols ≤ m.rows * m.cols := Nat.mul_le_mul_right _ hi
    simpa [Nat.succ_mul] using h1
  simp only [Mat.row, List.length_take, List.length_drop, Mat.wf] at *
  omega


/-! ## C2 — the shape-normalization fallback and the `N = 0` case -/

/-- C2 counterexample: the claim says the fallback reshape "succeeds without
raising even when the decoder-reported record count N is zero".  It does
not: with `count = 0` and a nonempty rank-1 buffer of 3 samples, the first
reshape fails (`0 * 3 ≠ 3`), and the fallback computes
`n_points = 3 // max(1, 0) = 3` but then reshapes to `(0, 3)`, which raises
`ValueError` (`0 * 3 ≠ 3`), and nothing catches it. -/
theorem C2_fallback_raises_on_zero_count :
    reshapeIntensities
      { xdata := [1], spectra := .rank1 [1, 2, 3], count := some 0,
        point_per_spectrum := 3 }
      = .error (.valueError "cannot reshape array of size 3 into shape (0, 3)") := by
  decide

/-- C2 (amended): if reshaping to the decoder-reported `(N, P)` fails and
the buffer is rank 1, the extractor reshapes to
`(getattr(reader,'count',1), total_size // max(1, count))`.  When the
`count` attribute is missing it defaults to 1 and the fallback always
succeeds without raising, yielding one row holding the whole buffer; but
when `count` is present and zero with a nonempty buffer, the fallback
reshape itself raises `ValueError` (only the divisor is guarded by
`max(1, ·)`, not the reshape's row count). -/
theorem C2_fallback_missing_count_defaults_zero_count_raises :
    (∀ (axis data : List ℚ) (pps : Nat),
      reshapeIntensities
          { xdata := axis, spectra := .rank1 data, count := none,
            point_per_spectrum := pps }
        = .ok ⟨1, data.length, data⟩) ∧
    (∀ (axis data : List ℚ) (pps : Nat), data ≠ [] →
      ∃ msg, reshapeIntensities
          { xdata := axis, spectra := .rank1 data,
            count := some 0, point_per_spectrum := pps }
        = .error (.valueError msg)) := by
  constructor
  · intro axis data pps
    simp [reshapeIntensities, npReshape, Buffer.size, Buffer.flat]
  · intro axis data pps hne
    have hlen : data.length ≠ 0 := fun h => hne (List.length_eq_zero.mp h)
    refine ⟨"cannot reshape array of size " ++ toString data.length
      ++ " into shape (" ++ toString 0 ++ ", " ++ toString data.length ++ ")", ?_⟩
    simp [reshapeIntensities, npReshape, Buffer.size, Buffer.flat, hlen,
      Ne.symm hlen, Option.bind]

/-- C2 witness: the amended theorem applied at concrete inputs — a missing
`count` with a 2-sample buffer normalizes to one row without raising, and
`count = 0` with the same buffer raises. -/
theorem C2_fallback_witness :
    reshapeIntensities
        { xdata := [5], spectra := .rank1 [7, 9], count := none,
          point_per_spectrum := 4 }
      = .ok ⟨1, 2, [7, 9]⟩ ∧
    ∃ msg, reshapeIntensities
        { xdata := [5], spectra := .rank1 [7, 9],
          count := some 0, point_per_spectrum := 4 }
      = .error (.valueError msg) :=
  ⟨C2_fallback_missing_count_defaults_zero_count_raises.1 [5] [7, 9] 4,
   C2_fallback_missing_count_defaults_zero_count_raises.2 [5] [7, 9] 4 (by decide)⟩

/-! ## C6 — the extraction shape invariant -/

/-- C6 counterexample: the claim says that "for every buffer whose size does
not match the reported dimensions, extraction does not raise".  It does
raise: a flat buffer of 7 samples with reported `(N, P) = (3, 2)` fails the
first reshape (`6 ≠ 7`), and the fallback computes `7 // max(1, 3) = 2` and
reshapes to `(3, 2)` again — which raises `ValueError` since 3 does not
divide 7. -/
theorem C6_mismatched_buffer_raises :
    reshapeIntensities
      { xdata := [1, 2], spectra := .rank1 [1, 2, 3, 4, 5, 6, 7],
        count := some 3, point_per_spectrum := 2 }
      = .error (.valueError "cannot reshape array of size 7 into shape (3, 2)") := by
  decide

/-- C6 (amended): when the decoder-reported `N × P` equals the buffer size,
extraction yields exactly `N` rows of length `P`.  When the first reshape
fails, a rank-2 buffer is used as-is; a rank-1 buffer is reshaped to
`(n, size // max(1, n))` with `n = getattr(reader, 'count', 1)`, which
succeeds exactly when `n * (size // max(1, n)) = size` (for instance when
`n ≥ 1` divides the size, and always when the attribute is missing) and
otherwise raises a `ValueError` that escapes the extractor. -/
theorem C6_shape_invariant (h : WDFHandle) :
    (∀ n, h.count = some n → n * h.point_per_spectrum = h.spectra.size →
      reshapeIntensities h = .ok ⟨n, h.point_per_spectrum, h.spectra.flat⟩ ∧
      ∀ i, i < n →
        (Mat.row ⟨n, h.point_per_spectrum, h.spectra.flat⟩ i).length
          = h.point_per_spectrum) ∧
    (h.count.bind (fun n => npReshape h.spectra n h.point_per_spectrum) = none →
      (∀ m, h.spectra = .rank2 m → reshapeIntensities h = .ok m) ∧
      (∀ data, h.spectra = .rank1 data →
        (h.count.getD 1 * (data.length / max 1 (h.count.getD 1)) = data.length →
          reshapeIntensities h
            = .ok ⟨h.count.getD 1, data.length / max 1 (h.count.getD 1), data⟩) ∧
        (h.count.getD 1 * (data.length / max 1 (h.count.getD 1)) ≠ data.length →
          ∃ msg, reshapeIntensities h = .error (.valueError msg)))) := by
  constructor
  · intro n hn hsz
    have hok : reshapeIntensities h = .ok ⟨n, h.point_per_spectrum, h.spectra.flat⟩ := by
      simp [reshapeIntensities, hn, npReshape, hsz]
    refine ⟨hok, fun i hi => matRowLength _ ?_ i hi⟩
    simp [Mat.wf, ← bufferSizeFlat, ← hsz]
  · intro hfail
    constructor
    · intro m hm
      rw [hm] at hfail
      simp [reshapeIntensities, hm, hfail]
    · intro data hd
      rw [hd] at hfail
      simp only [npReshape, Buffer.size, Buffer.flat] at hfail
      constructor
      · intro hdiv
        simp [reshapeIntensities, hfail, hd, npReshape, Buffer.size,
          Buffer.flat, hdiv]
      · intro hndiv
        refine ⟨"cannot reshape array of size " ++ toString data.length
          ++ " into shape (" ++ toString (h.count.getD 1) ++ ", "
          ++ toString (data.length / max 1 (h.count.getD 1)) ++ ")", ?_⟩
        simp [reshapeIntensities, hfail, hd, npReshape, Buffer.size,
          Buffer.flat, hndiv]

/-- C6 witness: the amended theorem applied at concrete inputs — reported
`(2, 3)` with a 6-sample buffer yields exactly 2 rows of length 3. -/
theorem C6_shape_invariant_witness :
    reshapeIntensities
        { xdata := [1, 2, 3], spectra := .rank1 [4, 5, 6, 7, 8, 9],
          count := some 2, point_per_spectrum := 3 }
      = .ok ⟨2, 3, [4, 5, 6, 7, 8, 9]⟩ ∧
    (Mat.row ⟨2, 3, [4, 5, 6, 7, 8, 9]⟩ 1).length = 3 :=
  have h := (C6_shape_invariant
    { xdata := [1, 2, 3], spectra := .rank1 [4, 5, 6, 7, 8, 9],
      count := some 2, point_per_spectrum := 3 }).1 2 rfl (by decide)
  ⟨h.1, h.2 1 (by decide)⟩

/-! ## C7 — per-record export completeness -/

theorem fmt6_sixDecimals (q : ℚ) :
    ∃ pre frac : String, fmt6 q = pre ++ "." ++ frac ∧ frac.length = 6 := by
  refine ⟨(if round (q * 1000000) < 0 then "-" else "")
      ++ toString ((round (q * 1000000)).natAbs / 1000000),
    natDigitsFixed 6 ((round (q * 1000000)).natAbs % 1000000), ?_, ?_⟩
  · rfl
  · show (String.mk _).length = 6
    simp [String.length, natDigitsFixed]

theorem saveSpectraAux_ok (axis : List ℚ) (m : Mat) (wfail : Nat → Option String)
    (hwf : m.wf) (hax : axis.length = m.cols) (hw : ∀ i, wfail i = none) :
    ∀ is : List Nat, (∀ i ∈ is, i < m.rows) →
      saveSpectraAux axis m wfail is = .ok (is.map (mkTxtFile axis m)) := by
  intro is
  induction is with
  | nil => intro _; rfl
  | cons i rest ih =>
      intro hmem
      have hi : i < m.rows := hmem i (List.mem_cons_self i rest)
      have hrow : (m.row i).length = m.cols := matRowLength m hwf i hi
      have hrest := ih (fun j hj => hmem j (List.mem_cons_of_mem i hj))
      simp [saveSpectraAux, saveOneSpectrum, hw i, hax, hrow, hrest, mkTxtFile]

/-- C7: for an extracted record matrix of `N` rows and `P` columns (with the
axis of length `P`), the per-record text exporter writes exactly `N` files
named `"0.txt" … "(N-1).txt"`, each containing exactly `P` lines, each line
being the axis value and the intensity separated by a tab, both in
six-decimal fixed-point format (so with no header line), and returns `N` as
the number of records written. -/
theorem C7_per_record_export_complete (h : WDFHandle) (m : Mat)
    (wfail : Nat → Option String) (hm : reshapeIntensities h = .ok m)
    (hwf : m.wf) (hax : h.xdata.length = m.cols) (hw : ∀ i, wfail i = none) :
    extract_and_save_spectra_to_txt (.ok h) none wfail
      = .ok ((List.range m.rows).map (mkTxtFile h.xdata m), m.rows, none) ∧
    ((List.range m.rows).map (mkTxtFile h.xdata m)).length = m.rows ∧
    (∀ i, i < m.rows →
      (mkTxtFile h.xdata m i).name = toString i ++ ".txt" ∧
      (mkTxtFile h.xdata m i).lines
        = (h.xdata.zip (m.row i)).map (fun pr => fmt6 pr.1 ++ "\t" ++ fmt6 pr.2) ∧
      (mkTxtFile h.xdata m i).lines.length = m.cols) ∧
    (∀ q : ℚ, ∃ pre frac : String, fmt6 q = pre ++ "." ++ frac ∧ frac.length = 6) := by
  refine ⟨?_, by simp, ?_, fmt6_sixDecimals⟩
  · have hsave := saveSpectraAux_ok h.xdata m wfail hwf hax hw (List.range m.rows)
      (fun i hi => List.mem_range.mp hi)
    simp [extract_and_save_spectra_to_txt, hm, hsave]
  · intro i hi
    refine ⟨rfl, by simp [mkTxtFile, fmtLine], ?_⟩
    simp [mkTxtFile, hax, matRowLength m hwf i hi]

/-- C7 witness: the theorem applied to a concrete 2-record, 2-point matrix —
two files `0.txt` and `1.txt`, two lines each, and 2 returned. -/
theorem C7_per_record_export_witness :
    extract_and_save_spectra_to_txt
        (.ok { xdata := [0, 1], spectra := .rank1 [1, 2, 3, 4],
               count := some 2, point_per_spectrum := 2 })
        none (fun _ => none)
      = .ok ((List.range 2).map (mkTxtFile [0, 1] ⟨2, 2, [1, 2, 3, 4]⟩), 2, none) ∧
    (mkTxtFile [0, 1] ⟨2, 2, [1, 2, 3, 4]⟩ 1).lines.length = 2 :=
  have h := C7_per_record_export_complete
    { xdata := [0, 1], spectra := .rank1 [1, 2, 3, 4],
      count := some 2, point_per_spectrum := 2 }
    ⟨2, 2, [1, 2, 3, 4]⟩ (fun _ => none) (by decide) rfl rfl
    (fun _ => rfl)
  ⟨h.1, (h.2.2.1 1 (by decide)).2.2⟩

/-! ## C8 — aggregate exporter return values -/

/-- C8: with the axis matching the record width (the invariant of a decoded
record set), the aggregate CSV step returns 1 on success — one output file,
regardless of the number of records `N`, including `N = 0`, where the file
is just the header — and returns 0 together with the failure category
`"Failed to write CSV: <error>"` exactly when the write raises; no other
failure of this step exists. -/
theorem C8_csv_export_return (axis : List ℚ) (m : Mat) (ioFail : Option String)
    (hax : axis.length = m.cols) :
    (ioFail = none →
      write_csv_step axis m ioFail
        = (some { header := axis, rows := (List.range m.rows).map m.row }, 1, none)) ∧
    (∀ e, ioFail = some e →
      write_csv_step axis m ioFail
        = (none, 0, some ("Failed to write CSV: " ++ e))) := by
  constructor
  · intro hio
    simp [write_csv_step, hax, hio]
  · intro e hio
    simp [write_csv_step, hax, hio]

/-- C8 witness: the theorem applied at `N = 0` (empty record matrix):
success still returns 1, and a failing write returns 0 with the
`"Failed to write CSV: …"` category. -/
theorem C8_csv_export_witness :
    write_csv_step [] ⟨0, 0, []⟩ none = (some { header := [], rows := [] }, 1, none) ∧
    write_csv_step [] ⟨0, 0, []⟩ (some "OSError: disk full")
      = (none, 0, some "Failed to write CSV: OSError: disk full") :=
  ⟨(C8_csv_export_return [] ⟨0, 0, []⟩ none rfl).1 rfl,
   (C8_csv_export_return [] ⟨0, 0, []⟩ (some "OSError: disk full") rfl).2
     "OSError: disk full" rfl⟩

/-! ## C9 — discovery is sorted and deterministic -/

theorem charsLtB_iff (xs ys : List Char) :
    charsLtB xs ys = true ↔ List.Lex (· < ·) xs ys := by
  induction xs generalizing ys with
  | nil =>
      cases ys with
      | nil => simp [charsLtB]
      | cons b bs => simp [charsLtB]; exact List.Lex.nil
  | cons a as ih =>
      cases ys with
      | nil =>
          simp only [charsLtB, Bool.false_eq_true, false_iff]
          exact List.Lex.not_nil_right _ _
      | cons b bs =>
          by_cases hab : a < b
          · simp only [charsLtB, hab, if_true, true_iff]
            exact List.Lex.rel hab
          · by_cases hba : b < a
            · simp only [charsLtB, hab, hba, if_false, if_true,
                Bool.false_eq_true, false_iff]
              intro hlex
              cases hlex with
              | rel h => exact hab h
              | cons h => exact (lt_irrefl a) hba
            · have heq : a = b := le_antisymm (not_lt.mp hba) (not_lt.mp hab)
              subst heq
              simp only [charsLtB, lt_irrefl, if_false]
              rw [ih bs]
              exact (List.Lex.cons_iff).symm

theorem strLeB_iff (a b : String) : strLeB a b = true ↔ a ≤ b := by
  rw [String.le_iff_toList_le, ← not_lt]
  have hlt : b.toList < a.toList ↔ charsLtB b.data a.data = true := by
    rw [charsLtB_iff]
    rfl
  rw [hlt, strLeB]
  simp


theorem strLeB_total : ∀ a b : String, strLeB a b = true ∨ strLeB b a = true := by
  intro a b
  rcases le_total a b with h | h
  · exact Or.inl ((strLeB_iff a b).mpr h)
  · exact Or.inr ((strLeB_iff b a).mpr h)

theorem strLeB_trans : ∀ a b c : String,
    strLeB a b = true → strLeB b c = true → strLeB a c = true := by
  intro a b c hab hbc
  exact (strLeB_iff a c).mpr (le_trans ((strLeB_iff a b).mp hab) ((strLeB_iff b c).mp hbc))

theorem strLeB_antisymm : ∀ a b : String,
    strLeB a b = true → strLeB b a = true → a = b := by
  intro a b hab hba
  exact le_antisymm ((strLeB_iff a b).mp hab) ((strLeB_iff b a).mp hba)

/-- Two permuted inputs give the same sorted output. -/
theorem insertionSort_strLeB_perm_congr (f f' : List String) (hp : f.Perm f') :
    List.insertionSort (fun a b => strLeB a b = true) f
      = List.insertionSort (fun a b => strLeB a b = true) f' := by
  haveI : IsTotal String (fun a b => strLeB a b = true) := ⟨strLeB_total⟩
  haveI : IsTrans String (fun a b => strLeB a b = true) := ⟨strLeB_trans⟩
  haveI : IsAntisymm String (fun a b => strLeB a b = true) := ⟨strLeB_antisymm⟩
  exact List.eq_of_perm_of_sorted
    (((List.perm_insertionSort _ f).trans hp).trans
      (List.perm_insertionSort _ f').symm)
    (List.sorted_insertionSort _ f) (List.sorted_insertionSort _ f')

/-- C9: `get_filenames` always returns a sequence sorted lexicographically
by full path string (with respect to the standard string order), and its
result depends only on the set of filesystem entries, not on their
enumeration order: any permutation of the directory listing yields the
same ordered sequence. -/
theorem C9_discovery_sorted_and_deterministic (entries entries' : List FSEntry)
    (patterns : Option (List String)) (recursive : Bool)
    (hperm : entries.Perm entries') :
    List.Sorted (fun a b : String => a ≤ b)
      (get_filenames entries patterns recursive) ∧
    get_filenames entries patterns recursive
      = get_filenames entries' patterns recursive := by
  haveI : IsTotal String (fun a b => strLeB a b = true) := ⟨strLeB_total⟩
  haveI : IsTrans String (fun a b => strLeB a b = true) := ⟨strLeB_trans⟩
  constructor
  · apply List.Pairwise.imp (fun hab => (strLeB_iff _ _).mp hab)
    exact List.sorted_insertionSort _ _
  · show List.insertionSort _ _ = List.insertionSort _ _
    apply insertionSort_strLeB_perm_congr
    cases recursive with
    | true =>
        simp only [if_true]
        induction patsOrStar patterns with
        | nil => simp
        | cons p ps ih =>
            simp only [List.flatMap_cons]
            exact List.Perm.append ((hperm.filter _).map _) ih
    | false =>
        simp only [if_false, Bool.false_eq_true]
        cases patterns with
        | none => exact (hperm.filter _).map _
        | some pats =>
            cases pats with
            | nil => exact (hperm.filter _).map _
            | cons p ps => exact (((hperm.filter _).filter _).map _)

/-- C9 witness: the theorem applied to a concrete listing and a reversed
enumeration of it — the output is sorted and identical for both. -/
theorem C9_discovery_witness :
    List.Sorted (fun a b : String => a ≤ b)
      (get_filenames
        [⟨"root/b.wdf", true, true⟩, ⟨"root/a.wdf", true, true⟩]
        (some [".wdf"]) false) ∧
    get_filenames
        [⟨"root/b.wdf", true, true⟩, ⟨"root/a.wdf", true, true⟩]
        (some [".wdf"]) false
      = get_filenames
        [⟨"root/a.wdf", true, true⟩, ⟨"root/b.wdf", true, true⟩]
        (some [".wdf"]) false :=
  C9_discovery_sorted_and_deterministic
    [⟨"root/b.wdf", true, true⟩, ⟨"root/a.wdf", true, true⟩]
    [⟨"root/a.wdf", true, true⟩, ⟨"root/b.wdf", true, true⟩]
    (some [".wdf"]) false (List.Perm.swap _ _ _)

/-! ## C3 — empty discovery aborts, but after creating the export root -/

/-- A batch environment whose import root exists but contains no `.wdf`
file, with every filesystem operation succeeding. -/
def envNoWdf : Env :=
  { importDirExists := true, exportRootFail := none, walkRelDirs := [""],
    mirrorFail := fun _ => none,
    entries := [⟨"root/readme.txt", true, true⟩],
    decode := fun _ => .error "unused",
    subdirFail := fun _ => none,
    writeFail := fun _ _ => none,
    csvWriteFail := fun _ => none }

/-- C3 counterexample: with no matching files the batch does fail with the
no-matching-files discovery error, but the claim's "no output directory is
created for results" is false — `os.makedirs(txt_export_dir_path)` runs
before discovery, so the export root `"out"` has already been created when
the error is raised. -/
theorem C3_export_root_created_before_discovery_error :
    (run_conversion envNoWdf "root" "out" "txt" false false).result
      = .error (.fileNotFound "No WDF files found in root") ∧
    (run_conversion envNoWdf "root" "out" "txt" false false).createdDirs
      = ["out"] := by
  decide

/-- C3 (amended): for every import directory that exists but contains no
file matching the `.wdf` filter, the (non-mirrored) batch fails with the
`FileNotFoundError("No WDF files found in …")` discovery error, nothing is
recorded in the failure map — but the export root directory has already
been created; only per-file output locations are never created. -/
theorem C3_no_matching_files_aborts (env : Env)
    (importRoot exportRoot fmt : String) (recursive : Bool)
    (hdir : env.importDirExists = true)
    (hroot : env.exportRootFail = none)
    (hnone : get_filenames env.entries (some [".wdf"]) recursive = []) :
    (run_conversion env importRoot exportRoot fmt false recursive).result
      = .error (.fileNotFound ("No WDF files found in " ++ importRoot)) ∧
    (run_conversion env importRoot exportRoot fmt false recursive).createdDirs
      = [exportRoot] ∧
    (run_conversion env importRoot exportRoot fmt false recursive).failedMapFinal
      = [] := by
  simp [run_conversion, hdir, hroot, hnone]

/-- C3 witness: the amended theorem applied to the concrete no-match
environment. -/
theorem C3_no_matching_files_witness :
    (run_conversion envNoWdf "root" "out" "csv" false true).result
      = .error (.fileNotFound "No WDF files found in root") ∧
    (run_conversion envNoWdf "root" "out" "csv" false true).createdDirs
      = ["out"] ∧
    (run_conversion envNoWdf "root" "out" "csv" false true).failedMapFinal = [] :=
  C3_no_matching_files_aborts envNoWdf "root" "out" "csv" true rfl rfl (by decide)

/-! ## C4 — mirroring errors: non-fatal to the batch, but mirroring stops -/

theorem mirror_stops_at_first_failure (exportRoot : String)
    (mk : String → Option String) (d e : String) (rest : List String) :
    ∀ pre : List String, (∀ x ∈ pre, mk (joinPath exportRoot x) = none) →
      mk (joinPath exportRoot d) = some e →
      mirror_dir_path_tree (pre ++ d :: rest) exportRoot mk
        = (pre.map (joinPath exportRoot), some e) := by
  intro pre
  induction pre with
  | nil =>
      intro _ hd
      simp [mirror_dir_path_tree, hd]
  | cons x xs ih =>
      intro hpre hd
      have hx := hpre x (List.mem_cons_self x xs)
      simp [mirror_dir_path_tree, hx,
        ih (fun y hy => hpre y (List.mem_cons_of_mem x hy)) hd]

theorem processFile_env_congr (env env' : Env) (ir er fmt : String) (mir : Bool)
    (hdec : env.decode = env'.decode) (hsub : env.subdirFail = env'.subdirFail)
    (hwf : env.writeFail = env'.writeFail)
    (hcsv : env.csvWriteFail = env'.csvWriteFail) (w : String) :
    processFile env ir er fmt mir w = processFile env' ir er fmt mir w := by
  simp only [processFile, hdec, hsub, hwf, hcsv]

theorem processAll_env_congr (env env' : Env) (ir er fmt : String) (mir : Bool)
    (hdec : env.decode = env'.decode) (hsub : env.subdirFail = env'.subdirFail)
    (hwf : env.writeFail = env'.writeFail)
    (hcsv : env.csvWriteFail = env'.csvWriteFail) (fs : List String) :
    ∀ st : LoopState,
      processAll env ir er fmt mir fs st = processAll env' ir er fmt mir fs st := by
  induction fs with
  | nil => intro st; rfl
  | cons w rest ih =>
      intro st
      have hpf := processFile_env_congr env env' ir er fmt mir hdec hsub hwf hcsv w
      simp only [processAll, hpf]
      rcases h : applyOutcome st (baseName w) (processFile env' ir er fmt mir w) with
        ⟨st', err⟩
      cases err with
      | none => simpa [h] using ih st'
      | some pe => simp [h]

theorem processAll_created_irrel (env : Env) (ir er fmt : String) (mir : Bool)
    (fs : List String) :
    ∀ (s : Nat) (fm : List (String × List String)) (c c' : List String),
      ((processAll env ir er fmt mir fs ⟨s, fm, c⟩).1.successCount
          = (processAll env ir er fmt mir fs ⟨s, fm, c'⟩).1.successCount) ∧
      ((processAll env ir er fmt mir fs ⟨s, fm, c⟩).1.failedMap
          = (processAll env ir er fmt mir fs ⟨s, fm, c'⟩).1.failedMap) ∧
      ((processAll env ir er fmt mir fs ⟨s, fm, c⟩).2
          = (processAll env ir er fmt mir fs ⟨s, fm, c'⟩).2) := by
  induction fs with
  | nil => intro s fm c c'; exact ⟨rfl, rfl, rfl⟩
  | cons w rest ih =>
      intro s fm c c'
      cases hpo : processFile env ir er fmt mir w with
      | success d =>
          simpa [processAll, applyOutcome, hpo] using
            ih (s + 1) fm (c ++ [d]) (c' ++ [d])
      | failure cat d =>
          simpa [processAll, applyOutcome, hpo] using
            ih s (recordFail fm cat (baseName w)) (c ++ d.toList) (c' ++ d.toList)
      | crash pe =>
          simp [processAll, applyOutcome, hpo]

theorem finishRun_result_congr (pr pr' : LoopState × Option PyError)
    (hsc : pr.1.successCount = pr'.1.successCount)
    (hfm : pr.1.failedMap = pr'.1.failedMap) (herr : pr.2 = pr'.2) :
    (finishRun pr).result = (finishRun pr').result := by
  rcases pr with ⟨st, err⟩
  rcases pr' with ⟨st', err'⟩
  simp only at hsc hfm herr
  subst herr
  cases err with
  | some pe => simp [finishRun]
  | none => simp [finishRun, hsc, hfm]

theorem run_conversion_mirrorFail_result_irrel (env : Env)
    (f : String → Option String) (ir er fmt : String) (recursive : Bool) :
    (run_conversion { env with mirrorFail := f } ir er fmt true recursive).result
      = (run_conversion env ir er fmt true recursive).result := by
  obtain ⟨dirE, rootF, walk, mirF, ents, dec, subF, wF, csvF⟩ := env
  cases dirE with
  | false => rfl
  | true =>
      cases rootF with
      | some e => rfl
      | none =>
          show (run_conversion ⟨true, none, walk, f, ents, dec, subF, wF, csvF⟩
              ir er fmt true recursive).result
            = (run_conversion ⟨true, none, walk, mirF, ents, dec, subF, wF, csvF⟩
              ir er fmt true recursive).result
          simp only [run_conversion]
          by_cases hfe : (get_filenames ents (some [".wdf"]) recursive).isEmpty
          · simp [hfe]
          · simp only [hfe, Bool.not_true, Bool.false_eq_true, if_false,
              if_true, reduceIte]
            rw [processAll_env_congr
              ⟨true, none, walk, f, ents, dec, subF, wF, csvF⟩
              ⟨true, none, walk, mirF, ents, dec, subF, wF, csvF⟩
              ir er fmt true rfl rfl rfl rfl]
            apply finishRun_result_congr
            · exact (processAll_created_irrel _ ir er fmt true _ 0 [] _ _).1
            · exact (processAll_created_irrel _ ir er fmt true _ 0 [] _ _).2.1
            · exact (processAll_created_irrel _ ir er fmt true _ 0 [] _ _).2.2

/-- A `makedirs` oracle that fails exactly on the target `"out/a"`. -/
def mkFailOnOutA : String → Option String :=
  fun t => if t == "out/a" then some "Permission denied" else none

/-- C4 counterexample: with source directories `["", "a", "b"]` and a
creation failure at `"out/a"`, the claim's "mirroring continues best-effort
for the remaining directories" is false — only `"out"` has been created
when the error is raised, and `"out/b"` is never attempted (there is no
per-directory handler inside `mirror_dir_path_tree`; the only handler wraps
the whole call). -/
theorem C4_mirroring_stops_at_first_error :
    mirror_dir_path_tree ["", "a", "b"] "out" mkFailOnOutA
      = (["out"], some "Permission denied") ∧
    "out/b" ∉ (mirror_dir_path_tree ["", "a", "b"] "out" mkFailOnOutA).1 := by
  decide

/-- C4 (amended): a directory-creation error during mirroring is non-fatal
to the batch — `run_conversion` catches the exception from the whole
`mirror_dir_path_tree` call and merely logs a warning, so the run's result
is exactly what it would be with a fully successful mirroring — but
mirroring does not continue past the failure: exactly the directories
before the first failing one are created, and the directories after it are
never attempted. -/
theorem C4_mirror_error_nonfatal_but_mirroring_stops (env : Env)
    (importRoot exportRoot fmt : String) (recursive : Bool)
    (pre rest : List String) (d e : String)
    (hwalk : env.walkRelDirs = pre ++ d :: rest)
    (hpre : ∀ x ∈ pre, env.mirrorFail (joinPath exportRoot x) = none)
    (hd : env.mirrorFail (joinPath exportRoot d) = some e) :
    mirror_dir_path_tree env.walkRelDirs exportRoot env.mirrorFail
      = (pre.map (joinPath exportRoot), some e) ∧
    (run_conversion env importRoot exportRoot fmt true recursive).result
      = (run_conversion { env with mirrorFail := fun _ => none }
          importRoot exportRoot fmt true recursive).result := by
  constructor
  · rw [hwalk]
    exact mirror_stops_at_first_failure exportRoot env.mirrorFail d e rest pre hpre hd
  · exact (run_conversion_mirrorFail_result_irrel env (fun _ => none)
      importRoot exportRoot fmt recursive).symm

/-- A batch environment for the mirroring scenario: a nested tree whose
mirroring fails at `"out/a"`, with one convertible file at the root. -/
def envMirrorFail : Env :=
  { importDirExists := true, exportRootFail := none,
    walkRelDirs := ["", "a", "b"],
    mirrorFail := mkFailOnOutA,
    entries := [⟨"root/x.wdf", true, true⟩],
    decode := fun _ => .ok { xdata := [0], spectra := .rank1 [5], count := some 1,
                             point_per_spectrum := 1 },
    subdirFail := fun _ => none,
    writeFail := fun _ _ => none,
    csvWriteFail := fun _ => none }

/-- C4 witness: the amended theorem applied to the concrete environment —
mirroring created exactly `["out"]` and raised, and the batch result is the
same as under error-free mirroring. -/
theorem C4_mirror_error_witness :
    mirror_dir_path_tree envMirrorFail.walkRelDirs "out" envMirrorFail.mirrorFail
      = ([""].map (joinPath "out"), some "Permission denied") ∧
    (run_conversion envMirrorFail "root" "out" "txt" true false).result
      = (run_conversion { envMirrorFail with mirrorFail := fun _ => none }
          "root" "out" "txt" true false).result :=
  C4_mirror_error_nonfatal_but_mirroring_stops envMirrorFail "root" "out" "txt"
    false [""] ["b"] "a" "Permission denied" rfl (by decide) (by decide)

/-! ## C5 — unknown output format -/

/-- A well-behaved environment with one discovered file, for exercising the
unknown-format branch. -/
def envOneFile : Env :=
  { importDirExists := true, exportRootFail := none, walkRelDirs := [""],
    mirrorFail := fun _ => none,
    entries := [⟨"root/a.wdf", true, true⟩],
    decode := fun _ => .ok { xdata := [0], spectra := .rank1 [5], count := some 1,
                             point_per_spectrum := 1 },
    subdirFail := fun _ => none,
    writeFail := fun _ _ => none,
    csvWriteFail := fun _ => none }

/-- C5: what the code actually does on an unrecognized format.  With format
`"xml"` and one discovered file, the per-file loop reaches the `else`
branch on the first file and executes `failed.append(basename)` — but
`failed` is a `dict`, so this raises `AttributeError`, which nothing in
`run_conversion` catches.  The batch does abort with no file processed and
nothing recorded (the export root was already created and discovery had
already run), but via an unhandled `AttributeError` surfaced by `main` as
"Unexpected error", not as a clean whole-batch configuration error. -/
theorem C5_unknown_format_attribute_error :
    (run_conversion envOneFile "root" "out" "xml" false false).result
      = .error (.attributeError "dict object has no attribute append") ∧
    (run_conversion envOneFile "root" "out" "xml" false false).failedMapFinal
      = [] ∧
    (run_conversion envOneFile "root" "out" "xml" false false).createdDirs
      = ["out"] := by
  decide

/-! ## C1 — export write failures: csv recorded per-file, txt aborts -/

theorem failsOf_recordFail_self (mp : List (String × List String)) (k b : String) :
    b ∈ failsOf (recordFail mp k b) k := by
  induction mp with
  | nil => simp [recordFail, failsOf, List.find?]
  | cons pr rest ih =>
      rcases pr with ⟨k0, v⟩
      by_cases hk : k0 == k
      · simp [recordFail, failsOf, List.find?, hk]
      · simp only [recordFail, hk, if_false, Bool.false_eq_true]
        simpa [failsOf, List.find?, hk] using ih

theorem failsOf_recordFail_mono (mp : List (String × List String))
    (k k' b x : String) (hx : x ∈ failsOf mp k) :
    x ∈ failsOf (recordFail mp k' b) k := by
  induction mp with
  | nil => simp [failsOf, List.find?] at hx
  | cons pr rest ih =>
      rcases pr with ⟨k0, v⟩
      by_cases hk' : k0 == k'
      · by_cases hk : k0 == k
        · simp only [failsOf, List.find?, hk] at hx
          simp [recordFail, failsOf, List.find?, hk', hk]
          exact Or.inl hx
        · simp only [failsOf, List.find?, hk] at hx
          simpa [recordFail, failsOf, List.find?, hk', hk] using hx
      · by_cases hk : k0 == k
        · simp only [failsOf, List.find?, hk] at hx
          simp [recordFail, failsOf, List.find?, hk', hk]
          exact hx
        · simp only [failsOf, List.find?, hk] at hx
          simpa [recordFail, failsOf, List.find?, hk', hk] using ih hx

theorem processAll_failsOf_mono (env : Env) (ir er fmt : String) (mir : Bool)
    (fs : List String) : ∀ (st : LoopState) (k x : String),
    x ∈ failsOf st.failedMap k →
    x ∈ failsOf (processAll env ir er fmt mir fs st).1.failedMap k := by
  induction fs with
  | nil => intro st k x hx; exact hx
  | cons w rest ih =>
      intro st k x hx
      cases hpo : processFile env ir er fmt mir w with
      | success d =>
          simp only [processAll, applyOutcome, hpo]
          exact ih _ k x hx
      | failure cat d =>
          simp only [processAll, applyOutcome, hpo]
          exact ih _ k x (failsOf_recordFail_mono _ _ _ _ _ hx)
      | crash pe =>
          simpa [processAll, applyOutcome, hpo] using hx

theorem processAll_none_of_no_crash (env : Env) (ir er fmt : String) (mir : Bool)
    (fs : List String)
    (hnc : ∀ w ∈ fs, ∀ pe, processFile env ir er fmt mir w ≠ .crash pe) :
    ∀ st : LoopState, (processAll env ir er fmt mir fs st).2 = none := by
  induction fs with
  | nil => intro st; rfl
  | cons w rest ih =>
      intro st
      cases hpo : processFile env ir er fmt mir w with
      | success d =>
          simp only [processAll, applyOutcome, hpo]
          exact ih (fun v hv => hnc v (List.mem_cons_of_mem w hv)) _
      | failure cat d =>
          simp only [processAll, applyOutcome, hpo]
          exact ih (fun v hv => hnc v (List.mem_cons_of_mem w hv)) _
      | crash pe =>
          exact absurd hpo (hnc w (List.mem_cons_self w rest) pe)

theorem processFile_csv_not_crash (env : Env) (ir er : String) (mir : Bool)
    (w : String) (hmk : ∀ dir, env.subdirFail dir = none)
    (hex : ∃ r, extract_and_save_spectra_to_csv (env.decode w)
      (env.csvWriteFail w) = .ok r) (pe : PyError) :
    processFile env ir er "csv" mir w ≠ .crash pe := by
  have hfmt1 : (strToLower "csv" == "txt") = false := by decide
  have hfmt2 : (strToLower "csv" == "csv") = true := by decide
  obtain ⟨⟨opt, written, errOpt⟩, hr⟩ := hex
  by_cases hw : written > 0 <;>
    simp [processFile, hfmt1, hfmt2, hmk, hr, hw]

theorem processFile_csv_write_failure (env : Env) (ir er : String) (mir : Bool)
    (w : String) (h : WDFHandle) (m : Mat) (e : String)
    (hmk : ∀ dir, env.subdirFail dir = none)
    (hdec : env.decode w = .ok h) (hres : reshapeIntensities h = .ok m)
    (hax : h.xdata.length = m.cols) (hcsv : env.csvWriteFail w = some e) :
    ∃ dir, processFile env ir er "csv" mir w
      = .failure ("Failed to write CSV: " ++ e) (some dir) := by
  have hfmt1 : (strToLower "csv" == "txt") = false := by decide
  have hfmt2 : (strToLower "csv" == "csv") = true := by decide
  have hext : extract_and_save_spectra_to_csv (env.decode w) (env.csvWriteFail w)
      = .ok (none, 0, some ("Failed to write CSV: " ++ e)) := by
    simp [extract_and_save_spectra_to_csv, hdec, hres, write_csv_step, hax, hcsv]
  refine ⟨dirName (if mir then
      joinPath (joinPath er (if relPath (dirName w) ir == "." then ""
        else relPath (dirName w) ir)) ((splitExt (baseName w)).1 ++ ".csv")
    else joinPath er ((splitExt (baseName w)).1 ++ ".csv")), ?_⟩
  simp [processFile, hfmt1, hfmt2, hmk, hext]

theorem processAll_csv_records (env : Env) (ir er : String) (mir : Bool)
    (hmk : ∀ dir, env.subdirFail dir = none) :
    ∀ (fs : List String) (st : LoopState),
      (∀ w ∈ fs, ∃ r, extract_and_save_spectra_to_csv (env.decode w)
        (env.csvWriteFail w) = .ok r) →
      ∀ f ∈ fs, ∀ (h : WDFHandle) (m : Mat) (e : String),
        env.decode f = .ok h → reshapeIntensities h = .ok m →
        h.xdata.length = m.cols → env.csvWriteFail f = some e →
        baseName f ∈ failsOf (processAll env ir er "csv" mir fs st).1.failedMap
          ("Failed to write CSV: " ++ e) := by
  intro fs
  induction fs with
  | nil => intro st _ f hf; exact absurd hf (List.not_mem_nil f)
  | cons w rest ih =>
      intro st hex f hf h m e hdec hres hax hcsv
      rcases List.mem_cons.mp hf with hfw | hfr
      · subst hfw
        obtain ⟨d, hpo⟩ := processFile_csv_write_failure env ir er mir f h m e
          hmk hdec hres hax hcsv
        simp only [processAll, applyOutcome, hpo]
        exact processAll_failsOf_mono env ir er "csv" mir rest _ _ _
          (failsOf_recordFail_self _ _ _)
      · have hnc := processFile_csv_not_crash env ir er mir w hmk
          (hex w (List.mem_cons_self w rest))
        cases hpo : processFile env ir er "csv" mir w with
        | success d =>
            simp only [processAll, applyOutcome, hpo]
            exact ih _ (fun v hv => hex v (List.mem_cons_of_mem w hv)) f hfr
              h m e hdec hres hax hcsv
        | failure cat d =>
            simp only [processAll, applyOutcome, hpo]
            exact ih _ (fun v hv => hex v (List.mem_cons_of_mem w hv)) f hfr
              h m e hdec hres hax hcsv
        | crash pe => exact absurd hpo (hnc pe)

theorem run_conversion_processed (env : Env) (ir er fmt : String)
    (mirror recursive : Bool)
    (hdir : env.importDirExists = true) (hroot : env.exportRootFail = none)
    (hne : get_filenames env.entries (some [".wdf"]) recursive ≠ []) :
    run_conversion env ir er fmt mirror recursive
      = finishRun (processAll env ir er fmt mirror
          (get_filenames env.entries (some [".wdf"]) recursive)
          ⟨0, [], er :: (if mirror then
            (mirror_dir_path_tree env.walkRelDirs er env.mirrorFail).1
            else [])⟩) := by
  have hfe : (get_filenames env.entries (some [".wdf"]) recursive).isEmpty
      = false := by
    cases hf : get_filenames env.entries (some [".wdf"]) recursive with
    | nil => exact absurd hf hne
    | cons a l => rfl
  simp [run_conversion, hdir, hroot, hfe]

theorem finishRun_none (pr : LoopState × Option PyError) (h : pr.2 = none) :
    (finishRun pr).result
      = .ok (pr.1.successCount, ((pr.1.failedMap.map (fun p => p.2)).flatten).dedup) ∧
    (finishRun pr).failedMapFinal = pr.1.failedMap ∧
    (finishRun pr).printedTotalFailed
      = some ((pr.1.failedMap.map (fun p => p.2.length)).sum) := by
  rcases pr with ⟨st, err⟩
  simp only at h
  subst h
  simp [finishRun]

/-- A txt-format batch with two decodable single-record files in which
`np.savetxt` raises for the first file. -/
def envTxtWriteFail : Env :=
  { importDirExists := true, exportRootFail := none, walkRelDirs := [""],
    mirrorFail := fun _ => none,
    entries := [⟨"root/x.wdf", true, true⟩, ⟨"root/y.wdf", true, true⟩],
    decode := fun _ => .ok { xdata := [0], spectra := .rank1 [5], count := some 1,
                             point_per_spectrum := 1 },
    subdirFail := fun _ => none,
    writeFail := fun p _ => if p == "root/x.wdf" then some "OSError: disk full"
                            else none,
    csvWriteFail := fun _ => none }

/-- C1 counterexample: a write failure while exporting per-record text is
NOT recorded as a per-file failure and the batch does NOT continue —
`np.savetxt` is not inside any `try` in `extract_and_save_spectra_to_txt`,
and `run_conversion` does not wrap the call either, so the `OSError` from
`x.wdf`'s export escapes `run_conversion`: the batch aborts with an
uncaught exception, the second file `y.wdf` is never attempted, and the
failure map is left empty. -/
theorem C1_txt_write_failure_aborts_batch :
    (run_conversion envTxtWriteFail "root" "out" "txt" false false).result
      = .error (.ioError "OSError: disk full") ∧
    (run_conversion envTxtWriteFail "root" "out" "txt" false false).failedMapFinal
      = [] := by
  decide

/-- C1 (amended): for csv (aggregate-table) batches the claim holds — as
long as no file's extraction raises (so the loop reaches the write step),
the batch always runs to completion returning a success count and failed
list, and every file whose `to_csv` write fails is recorded against its
basename under the category `"Failed to write CSV: <error>"`; no csv write
error ever aborts the batch.  (For per-record text export, a write failure
instead raises an uncaught exception that aborts the whole batch — see the
counterexample.) -/
theorem C1_csv_write_failures_recorded_batch_continues (env : Env)
    (importRoot exportRoot : String) (mirror recursive : Bool)
    (hdir : env.importDirExists = true)
    (hroot : env.exportRootFail = none)
    (hne : get_filenames env.entries (some [".wdf"]) recursive ≠ [])
    (hmk : ∀ dir, env.subdirFail dir = none)
    (hnoexn : ∀ f ∈ get_filenames env.entries (some [".wdf"]) recursive,
        ∃ r, extract_and_save_spectra_to_csv (env.decode f) (env.csvWriteFail f)
          = .ok r) :
    (∃ c fl, (run_conversion env importRoot exportRoot "csv" mirror recursive).result
        = .ok (c, fl)) ∧
    (∀ f ∈ get_filenames env.entries (some [".wdf"]) recursive,
      ∀ (h : WDFHandle) (m : Mat) (e : String),
        env.decode f = .ok h → reshapeIntensities h = .ok m →
        h.xdata.length = m.cols → env.csvWriteFail f = some e →
        baseName f ∈ failsOf
          (run_conversion env importRoot exportRoot "csv" mirror recursive).failedMapFinal
          ("Failed to write CSV: " ++ e)) := by
  have hnc : ∀ w ∈ get_filenames env.entries (some [".wdf"]) recursive,
      ∀ pe, processFile env importRoot exportRoot "csv" mirror w ≠ .crash pe :=
    fun w hw => processFile_csv_not_crash env importRoot exportRoot mirror w hmk
      (hnoexn w hw)
  have hnone := processAll_none_of_no_crash env importRoot exportRoot "csv"
    mirror (get_filenames env.entries (some [".wdf"]) recursive) hnc
    ⟨0, [], exportRoot :: (if mirror then
      (mirror_dir_path_tree env.walkRelDirs exportRoot env.mirrorFail).1 else [])⟩
  have hrun := run_conversion_processed env importRoot exportRoot "csv" mirror
    recursive hdir hroot hne
  constructor
  · rw [hrun]
    exact ⟨_, _, (finishRun_none _ hnone).1⟩
  · intro f hf h m e hdec hres hax hcsv
    rw [hrun, (finishRun_none _ hnone).2.1]
    exact processAll_csv_records env importRoot exportRoot mirror hmk _ _
      hnoexn f hf h m e hdec hres hax hcsv

/-- A csv-format batch with two decodable files in which `to_csv` raises
for the first file only. -/
def envCsvWriteFail : Env :=
  { importDirExists := true, exportRootFail := none, walkRelDirs := [""],
    mirrorFail := fun _ => none,
    entries := [⟨"root/x.wdf", true, true⟩, ⟨"root/y.wdf", true, true⟩],
    decode := fun _ => .ok { xdata := [0], spectra := .rank1 [5], count := some 1,
                             point_per_spectrum := 1 },
    subdirFail := fun _ => none,
    writeFail := fun _ _ => none,
    csvWriteFail := fun p => if p == "root/x.wdf" then some "OSError: disk full"
                             else none }

/-- C1 witness: the amended theorem applied to the concrete csv batch —
the run completes with a normal return, and `x.wdf` is recorded under
`"Failed to write CSV: OSError: disk full"`. -/
theorem C1_csv_write_failure_witness :
    (∃ c fl, (run_conversion envCsvWriteFail "root" "out" "csv" false false).result
        = .ok (c, fl)) ∧
    baseName "root/x.wdf" ∈ failsOf
      (run_conversion envCsvWriteFail "root" "out" "csv" false false).failedMapFinal
      ("Failed to write CSV: " ++ "OSError: disk full") :=
  have hmain := C1_csv_write_failures_recorded_batch_continues envCsvWriteFail
    "root" "out" false false rfl rfl (by decide) (fun _ => rfl)
    (by
      intro f hf
      have hfiles : get_filenames envCsvWriteFail.entries (some [".wdf"]) false
          = ["root/x.wdf", "root/y.wdf"] := by decide
      rw [hfiles] at hf
      rcases List.mem_cons.mp hf with hfx | hf2
      · subst hfx; exact ⟨_, rfl⟩
      · rcases List.mem_cons.mp hf2 with hfy | hnil
        · subst hfy; exact ⟨_, rfl⟩
        · exact absurd hnil (List.not_mem_nil f))
  ⟨hmain.1, hmain.2 "root/x.wdf" (by decide)
    { xdata := [0], spectra := .rank1 [5], count := some 1,
      point_per_spectrum := 1 }
    ⟨1, 1, [5]⟩ "OSError: disk full" rfl (by decide) rfl (by decide)⟩

/-! ## C10 — the returned failed list is a deduplicated set of basenames -/

/-- C10: whenever `run_conversion` returns normally with
`(success_count, failed_basenames)`, the returned list is a deduplicated
set: it has no duplicates, and it contains exactly the basenames occurring
in the category → basenames failure map (so a basename shared by two failed
files in different directories appears only once) — while the printed
summary's failed total is the sum of the per-category list lengths, which
counts every failed file separately. -/
theorem C10_returned_failed_deduplicated (env : Env) (ir er fmt : String)
    (mirror recursive : Bool) (c : Nat) (fl : List String)
    (hok : (run_conversion env ir er fmt mirror recursive).result = .ok (c, fl)) :
    fl.Nodup ∧
    (∀ b, b ∈ fl ↔
      ∃ pr ∈ (run_conversion env ir er fmt mirror recursive).failedMapFinal,
        b ∈ pr.2) ∧
    (run_conversion env ir er fmt mirror recursive).printedTotalFailed
      = some (((run_conversion env ir er fmt mirror recursive).failedMapFinal.map
          (fun p => p.2.length)).sum) := by
  have hdir : env.importDirExists = true := by
    cases hd : env.importDirExists with
    | true => rfl
    | false => rw [run_conversion] at hok; simp [hd] at hok
  have hroot : env.exportRootFail = none := by
    cases hr : env.exportRootFail with
    | none => rfl
    | some e => rw [run_conversion] at hok; simp [hdir, hr] at hok
  have hne : get_filenames env.entries (some [".wdf"]) recursive ≠ [] := by
    intro hf
    rw [run_conversion] at hok
    simp [hdir, hroot, hf] at hok
  have hrun := run_conversion_processed env ir er fmt mirror recursive
    hdir hroot hne
  rw [hrun] at hok ⊢
  rcases hpr : (processAll env ir er fmt mirror
      (get_filenames env.entries (some [".wdf"]) recursive)
      ⟨0, [], er :: (if mirror then
        (mirror_dir_path_tree env.walkRelDirs er env.mirrorFail).1
        else [])⟩).2 with _ | pe
  · simp only [finishRun, hpr] at hok ⊢
    simp only [Except.ok.injEq, Prod.mk.injEq] at hok
    rcases hok with ⟨hc, hfl⟩
    subst hfl
    refine ⟨List.nodup_dedup _, ?_, by trivial⟩
    intro b
    rw [List.mem_dedup, List.mem_flatten]
    constructor
    · rintro ⟨l, hl, hb⟩
      rcases List.mem_map.mp hl with ⟨pr, hpr2, rfl⟩
      exact ⟨pr, hpr2, hb⟩
    · rintro ⟨pr, hpr2, hb⟩
      exact ⟨pr.2, List.mem_map.mpr ⟨pr, hpr2, rfl⟩, hb⟩
  · simp [finishRun, hpr] at hok

/-- A batch in which two distinct files in different directories share the
basename `x.wdf` and both fail to decode with the same error. -/
def envDupBasename : Env :=
  { importDirExists := true, exportRootFail := none, walkRelDirs := [""],
    mirrorFail := fun _ => none,
    entries := [⟨"root/a/x.wdf", true, false⟩, ⟨"root/b/x.wdf", true, false⟩],
    decode := fun _ => .error "OSError: boom",
    subdirFail := fun _ => none,
    writeFail := fun _ _ => none,
    csvWriteFail := fun _ => none }

/-- C10 witness: the theorem applied to the duplicate-basename batch, whose
result is `(0, ["x.wdf"])` — the shared basename appears once in the
returned list even though both files failed (and are counted separately in
the printed total). -/
theorem C10_returned_failed_witness :
    (["x.wdf"] : List String).Nodup ∧
    (∀ b, b ∈ (["x.wdf"] : List String) ↔
      ∃ pr ∈ (run_conversion envDupBasename "root" "out" "txt" false true).failedMapFinal,
        b ∈ pr.2) ∧
    (run_conversion envDupBasename "root" "out" "txt" false true).printedTotalFailed
      = some (((run_conversion envDupBasename "root" "out" "txt" false
          true).failedMapFinal.map (fun p => p.2.length)).sum) :=
  C10_returned_failed_deduplicated envDupBasename "root" "out" "txt" false true
    0 ["x.wdf"] (by decide)
